import Mathlib

/-
Verification of the ordering-window and cart-checkout subsystem of the
meal-ordering web application. The client-side cart logic is embedded from
src/static/order.js; money values (JS Numbers) are modelled as rationals,
quantities as integers, and JS objects used as maps as association lists
with unique keys. The server-side cutoff resolver is not part of src/ and
is modelled from the specification where noted.
-/

namespace OrderWeb

/-- Association-list lookup, modelling property read on a JS object used as a
map. JS objects have unique keys, so the first match is the binding. -/
def alGet {α : Type} : List (String × α) → String → Option α
  | [], _ => none
  | p :: rest, k => if p.1 = k then some p.2 else alGet rest k

/-- Association-list update, modelling obj[key] = v on a JS object: an
existing key keeps its position, a new key is appended. -/
def alSet {α : Type} : List (String × α) → String → α → List (String × α)
  | [], k, v => [(k, v)]
  | p :: rest, k, v => if p.1 = k then (k, v) :: rest else p :: alSet rest k v

/-- Association-list removal, modelling delete obj[key]; since keys are
unique, dropping every binding of the key equals dropping the one binding. -/
def alErase {α : Type} (l : List (String × α)) (k : String) : List (String × α) :=
  l.filter (fun p => p.1 != k)

/-- A cart line as stored by setQty in src/static/order.js: the id, name and
price captured from the menu item at add-time, plus the quantity. -/
structure CartLine where
  id : Nat
  name : String
  price : ℚ
  qty : ℤ
deriving DecidableEq, Repr

/-- The client cart value persisted under CART_KEY: items map, free-text
notes, selected payment method. -/
structure Cart where
  items : List (String × CartLine)
  notes : String
  payment_method : String
deriving DecidableEq, Repr

/-- A menu item as consumed by the cart logic (fields used only for
rendering, such as description and image url, are omitted). -/
structure MenuItem where
  id : Nat
  name : String
  price : ℚ
deriving DecidableEq, Repr

/-- The menu snapshot held in state.menu. -/
structure Menu where
  categories : List String
  active_category : Option String
  items : List MenuItem
deriving DecidableEq, Repr

/-- The settings payload fields used by the cart computation. -/
structure Settings where
  delivery_fee : ℚ
  cutlery_price : ℚ
deriving DecidableEq, Repr

/-- The extras value persisted under EXTRAS_KEY. -/
structure Extras where
  cutlery : Bool
deriving DecidableEq, Repr

/-- The authenticated-user payload field used by updateCheckoutState; a
missing company is null, and Boolean(0) is false in JS. -/
structure Me where
  company_id : Option ℤ
deriving DecidableEq, Repr

/-- The client state object of src/static/order.js (DOM-only fields
omitted). -/
structure ClientState where
  settings : Option Settings
  me : Option Me
  menu : Menu
  cart : Cart
  extras : Extras
  todayOrdersCount : ℤ
deriving DecidableEq, Repr

/-- Embeds getQty: state.cart.items[String(itemId)]?.qty with undefined
falling back to 0 through the JS or-with-zero. -/
def getQty (cart : Cart) (itemId : Nat) : ℤ :=
  match alGet cart.items (toString itemId) with
  | some line => line.qty
  | none => 0

/-- Embeds setQty of src/static/order.js: clamp the quantity at zero, delete
the line at zero, otherwise store a line with the captured id, name and
price of the given menu item. -/
def setQty (cart : Cart) (item : MenuItem) (qty : ℤ) : Cart :=
  let key := toString item.id
  let next := max 0 qty
  if next = 0 then
    { cart with items := alErase cart.items key }
  else
    let line : CartLine :=
      { id := item.id, name := item.name, price := item.price, qty := next }
    { cart with items := alSet cart.items key line }

/-- Embeds Boolean(state.me?.company_id): false when me is null, when the
company id is null, or when it is the falsy number 0. -/
def hasCompany (me : Option Me) : Bool :=
  match me with
  | none => false
  | some m =>
    match m.company_id with
    | none => false
    | some cid => cid != 0

/-- Embeds updateCheckoutState of src/static/order.js: the checkout button
is disabled when the cart is empty, no company is bound, or a needed
repeat-order confirmation is not checked. -/
def checkoutDisabled (cart : Cart) (me : Option Me) (todayOrdersCount : ℤ)
    (repeatChecked : Bool) : Bool :=
  let entries := cart.items.map Prod.snd
  let hasCo := hasCompany me
  let needsRepeatConfirmation := decide (1 ≤ todayOrdersCount)
  let repeatConfirmed := !needsRepeatConfirmation || repeatChecked
  decide (entries.length = 0) || !hasCo || !repeatConfirmed

/-- Embeds the subtotal reduce of renderCart:
entries.reduce((sum, item) => sum + item.qty * item.price, 0). -/
def cartSubtotal (entries : List CartLine) : ℚ :=
  entries.foldl (fun sum item => sum + (item.qty : ℚ) * item.price) 0

/-- Embeds the totals computed at the end of renderCart and handed to the
display formatter: subtotal, delivery fee, extras total, and grand total. -/
def renderCartTotals (cart : Cart) (settings : Option Settings) (extras : Extras) :
    ℚ × ℚ × ℚ × ℚ :=
  let entries := cart.items.map Prod.snd
  let subtotal := cartSubtotal entries
  let delivery := (settings.map Settings.delivery_fee).getD 0
  let cutleryPrice := (settings.map Settings.cutlery_price).getD 0
  let extrasTotal := if extras.cutlery then cutleryPrice else 0
  (subtotal, delivery, extrasTotal, subtotal + delivery + extrasTotal)

/-- Embeds loadMenu of src/static/order.js applied to a fetched payload: the
menu is replaced, defaulting the active category to the first one; the
cart is not touched. A failed fetch throws before this assignment runs. -/
def loadMenu (st : ClientState) (payload : Menu) : ClientState :=
  let menu :=
    if payload.active_category.isNone && !payload.categories.isEmpty then
      { payload with active_category := payload.categories.head? }
    else payload
  { st with menu := menu }

/-- Embeds clearCart of src/static/order.js: reset the cart value and the
extras value to their empty defaults. -/
def clearCart (st : ClientState) : ClientState :=
  { st with
    cart := { items := [], notes := "", payment_method := "" }
    extras := { cutlery := false } }

/-- The order payload built at the top of submitOrder. -/
structure OrderPayload where
  notes : String
  payment_method : String
  confirm_repeat : Bool
  cutlery : Bool
  cutlery_price : ℚ
  items : List (Nat × ℤ)
deriving DecidableEq, Repr

/-- Embeds the payload construction of submitOrder; repeatChecked models
Boolean(document.querySelector of the repeat confirm checkbox)?.checked. -/
def buildPayload (st : ClientState) (repeatChecked : Bool) : OrderPayload :=
  { notes := st.cart.notes
    payment_method := st.cart.payment_method
    confirm_repeat := decide (st.todayOrdersCount < 1) || repeatChecked
    cutlery := st.extras.cutlery
    cutlery_price := (st.settings.map Settings.cutlery_price).getD 0
    items := st.cart.items.map (fun p => (p.2.id, p.2.qty)) }

/-- Embeds the state effect of submitOrder: with an empty payment method it
returns early; a successful POST clears the cart; a failed POST only sets
an error message, leaving the state unchanged. -/
def submitOrder (st : ClientState) (repeatChecked : Bool)
    (response : Except String Nat) : ClientState :=
  let payload := buildPayload st repeatChecked
  if payload.payment_method = "" then st
  else
    match response with
    | Except.ok _ => clearCart st
    | Except.error _ => st

/-- Embeds loadTodayOrdersInfo: the count is the length of the fetched
array, or 0 when the response is not an array. -/
def loadTodayOrdersInfo (st : ClientState) (todayOrders : Option (List Unit)) :
    ClientState :=
  { st with todayOrdersCount :=
      match todayOrders with
      | some l => (l.length : ℤ)
      | none => 0 }

/-- Invariant over the cart map: every stored line has quantity at least 1. -/
def cartInv (cart : Cart) : Prop :=
  ∀ p ∈ cart.items, 1 ≤ p.2.qty

/-- A JSON value as produced by JSON.parse, plus undefined; NaN is not
modelled since no parsed JSON number is NaN. -/
inductive JsValue where
  | null
  | undefined
  | bool (b : Bool)
  | num (q : ℚ)
  | str (s : String)
  | obj (fields : List (String × JsValue))

/-- JS truthiness of a value, as used by the or-with-default idiom. -/
def jsTruthy : JsValue → Bool
  | JsValue.null => false
  | JsValue.undefined => false
  | JsValue.bool b => b
  | JsValue.num q => q != 0
  | JsValue.str s => s != ""
  | JsValue.obj _ => true

/-- JS property read v.key: none models the TypeError thrown on null or
undefined; a missing key on an object, or any key on another primitive,
reads as undefined. -/
def getProp : JsValue → String → Option JsValue
  | JsValue.null, _ => none
  | JsValue.undefined, _ => none
  | JsValue.obj fields, k => some ((alGet fields k).getD JsValue.undefined)
  | _, _ => some JsValue.undefined

/-- The raw cart value returned by loadCart; the fields keep their parsed
JS values since the source applies no further validation to them. -/
structure RawCart where
  items : JsValue
  notes : JsValue
  payment_method : JsValue

/-- The extras value returned by loadExtras. -/
structure RawExtras where
  cutlery : Bool
deriving DecidableEq, Repr

/-- The default cart produced by the catch branch and by the field
defaults of loadCart. -/
def defaultRawCart : RawCart :=
  { items := JsValue.obj [], notes := JsValue.str "", payment_method := JsValue.str "" }

/-- Embeds loadCart of src/static/order.js. The argument encodes the
localStorage read followed by JSON.parse: none is a missing key, whose
or-default string parses to the empty object; an error is a parse failure
caught by the catch branch; the property reads and the or-defaults run
inside the try, so a throwing read also lands in the catch branch. -/
def loadCart (stored : Option (Except Unit JsValue)) : RawCart :=
  match stored.getD (Except.ok (JsValue.obj [])) with
  | Except.error _ => defaultRawCart
  | Except.ok v =>
    match getProp v "items", getProp v "notes", getProp v "payment_method" with
    | some items, some notes, some pm =>
      { items := if jsTruthy items then items else JsValue.obj []
        notes := if jsTruthy notes then notes else JsValue.str ""
        payment_method := if jsTruthy pm then pm else JsValue.str "" }
    | _, _, _ => defaultRawCart

/-- Embeds loadExtras of src/static/order.js, with the same encoding of the
localStorage read as loadCart; Boolean(parsed.cutlery) is JS truthiness. -/
def loadExtras (stored : Option (Except Unit JsValue)) : RawExtras :=
  match stored.getD (Except.ok (JsValue.obj [])) with
  | Except.error _ => { cutlery := false }
  | Except.ok v =>
    match getProp v "cutlery" with
    | some c => { cutlery := jsTruthy c }
    | none => { cutlery := false }

/-- Modelled from the spec: the server-side Cutoff Resolver of section 4.1
is not under src/; its override chain takes the first non-null of the
per-location per-date override, the location override, and the restaurant
default cutoff time. -/
def resolve_cutoff_time (perLocationDate locationCutoff : Option ℤ)
    (restaurantDefault : ℤ) : ℤ :=
  ((perLocationDate.orElse (fun _ => locationCutoff)).getD restaurantDefault)

/-- Modelled from the spec: the resolved time-of-day combined with the date
in the operating timezone yields an absolute instant, here in seconds with
the date given as its midnight instant. -/
def cutoff_instant (dateMidnight timeOfDay : ℤ) : ℤ :=
  dateMidnight + timeOfDay

/-- Modelled from the spec: ordering is closed exactly when now is at or
after the resolved cutoff instant. -/
def is_closed (now cutoffInstant : ℤ) : Bool :=
  decide (cutoffInstant ≤ now)

/-- A neutral client state used to instantiate general theorems. -/
def baseState : ClientState :=
  { settings := none
    me := none
    menu := { categories := [], active_category := none, items := [] }
    cart := { items := [], notes := "", payment_method := "" }
    extras := { cutlery := false }
    todayOrdersCount := 0 }

/-- A concrete cart line used by the concrete-input theorems. -/
def exLine : CartLine :=
  { id := 1, name := "Pierogi", price := 12, qty := 2 }

/-- A concrete menu item backing exLine. -/
def exMenuItem : MenuItem :=
  { id := 1, name := "Pierogi", price := 12 }

/-- A concrete client state: one cart line backed by the current menu, a
bound company, payment method selected, no order placed today. -/
def exState : ClientState :=
  { settings := none
    me := some { company_id := some 5 }
    menu := { categories := ["Dania"], active_category := some "Dania", items := [exMenuItem] }
    cart := { items := [("1", exLine)], notes := "", payment_method := "BLIK" }
    extras := { cutlery := false }
    todayOrdersCount := 0 }

/-- A fetched menu snapshot from which menu item 1 has disappeared. -/
def exMenuGone : Menu :=
  { categories := ["Dania"], active_category := some "Dania", items := [] }

/-- A concrete cart with one line and no payment method selected. -/
def exCartNoPay : Cart :=
  { items := [("1", exLine)], notes := "", payment_method := "" }

/-- A concrete cart line whose price is a whole-cent amount that is not a
whole number of currency units. -/
def cexLine : CartLine :=
  { id := 1, name := "Zupa", price := 11 / 2, qty := 1 }

theorem alGet_alSet {α : Type} (l : List (String × α)) (k : String) (v : α) :
    alGet (alSet l k v) k = some v := by
  induction l with
  | nil => simp [alSet, alGet]
  | cons p rest ih =>
    by_cases h : p.1 = k
    · simp [alSet, alGet, h]
    · simp [alSet, alGet, h, ih]

theorem alGet_alErase {α : Type} (l : List (String × α)) (k : String) :
    alGet (alErase l k) k = none := by
  induction l with
  | nil => rfl
  | cons p rest ih =>
    by_cases h : p.1 = k
    · simpa [alErase, List.filter_cons, h] using ih
    · simpa [alErase, List.filter_cons, h, alGet] using ih

theorem mem_alSet {α : Type} {l : List (String × α)} {k : String} {v : α}
    {q : String × α} (hq : q ∈ alSet l k v) : q = (k, v) ∨ q ∈ l := by
  induction l with
  | nil => simpa [alSet] using hq
  | cons p rest ih =>
    by_cases h : p.1 = k
    · simp [alSet, h] at hq
      rcases hq with h1 | h2
      · exact Or.inl h1
      · exact Or.inr (List.mem_cons_of_mem p h2)
    · simp only [alSet, if_neg h, List.mem_cons] at hq
      rcases hq with h1 | h2
      · exact Or.inr (h1 ▸ List.mem_cons_self p rest)
      · rcases ih h2 with h3 | h4
        · exact Or.inl h3
        · exact Or.inr (List.mem_cons_of_mem p h4)

theorem mem_alErase {α : Type} {l : List (String × α)} {k : String}
    {q : String × α} (hq : q ∈ alErase l k) : q ∈ l :=
  List.mem_of_mem_filter hq

theorem cartSubtotal_aux (entries : List CartLine) (acc : ℚ) :
    entries.foldl (fun sum item => sum + (item.qty : ℚ) * item.price) acc
      = acc + (entries.map (fun item => (item.qty : ℚ) * item.price)).sum := by
  induction entries generalizing acc with
  | nil => simp
  | cons e rest ih => simp [ih, add_assoc]

theorem cartSubtotal_eq_sum (entries : List CartLine) :
    cartSubtotal entries
      = (entries.map (fun item => (item.qty : ℚ) * item.price)).sum := by
  simpa using cartSubtotal_aux entries 0

theorem setQty_lookup_pos (cart : Cart) (item : MenuItem) (q : ℤ) (h : 1 ≤ q) :
    alGet (setQty cart item q).items (toString item.id)
      = some { id := item.id, name := item.name, price := item.price, qty := q } := by
  have h1 : max 0 q = q := max_eq_right (by omega)
  have h2 : q ≠ 0 := by omega
  simp [setQty, h1, h2, alGet_alSet]

theorem setQty_lookup_nonpos (cart : Cart) (item : MenuItem) (q : ℤ) (h : q ≤ 0) :
    alGet (setQty cart item q).items (toString item.id) = none := by
  have h1 : max 0 q = 0 := max_eq_left h
  simp [setQty, h1, alGet_alErase]

/-- C1: for every resolved cutoff instant and current time, ordering is
closed exactly when now is at or after the cutoff instant; a submission at
exactly the cutoff instant is closed, and one second before it is open. -/
theorem cutoff_closed_iff_now_ge (a b : Option ℤ) (c d now : ℤ) :
    (is_closed now (cutoff_instant d (resolve_cutoff_time a b c)) = true
        ↔ cutoff_instant d (resolve_cutoff_time a b c) ≤ now)
    ∧ is_closed (cutoff_instant d (resolve_cutoff_time a b c))
        (cutoff_instant d (resolve_cutoff_time a b c)) = true
    ∧ is_closed (cutoff_instant d (resolve_cutoff_time a b c) - 1)
        (cutoff_instant d (resolve_cutoff_time a b c)) = false := by
  refine ⟨by simp [is_closed], by simp [is_closed], ?_⟩
  simp only [is_closed, decide_eq_false_iff_not]
  omega

/-- Witness for C1 at the concrete cutoff instant 100. -/
theorem cutoff_closed_iff_now_ge_w :
    is_closed 100 100 = true ∧ is_closed 99 100 = false := by
  have h := cutoff_closed_iff_now_ge none none 100 0 100
  exact ⟨h.2.1, h.2.2⟩

/-- C10: the payload field confirm_repeat is true exactly when the today
orders count is below 1 or the repeat confirmation checkbox is checked; a
customer with an empty today-orders array always submits true. -/
theorem confirm_repeat_field_iff (st : ClientState) (repeatChecked : Bool) :
    ((buildPayload st repeatChecked).confirm_repeat = true
        ↔ (st.todayOrdersCount < 1 ∨ repeatChecked = true))
    ∧ (buildPayload (loadTodayOrdersInfo st (some [])) repeatChecked).confirm_repeat
        = true := by
  constructor
  · simp [buildPayload]
  · simp [buildPayload, loadTodayOrdersInfo]

/-- Witness for C10 on the neutral state with the checkbox unchecked. -/
theorem confirm_repeat_field_iff_w :
    (buildPayload (loadTodayOrdersInfo baseState (some [])) false).confirm_repeat
      = true :=
  (confirm_repeat_field_iff baseState false).2

/-- C3: the rendered subtotal is the sum of quantity times captured price
over the cart entries, and the grand total adds the delivery fee and the
cutlery price exactly when the cutlery extra is selected. -/
theorem render_totals_formula (cart : Cart) (settings : Option Settings)
    (extras : Extras) :
    (renderCartTotals cart settings extras).1
        = ((cart.items.map Prod.snd).map (fun item => (item.qty : ℚ) * item.price)).sum
    ∧ (renderCartTotals cart settings extras).2.2.2
        = (renderCartTotals cart settings extras).1
          + (settings.map Settings.delivery_fee).getD 0
          + (if extras.cutlery then (settings.map Settings.cutlery_price).getD 0 else 0) := by
  constructor
  · simp [renderCartTotals, cartSubtotal_eq_sum]
  · simp [renderCartTotals]

/-- C2 counterexample: a non-empty cart with a bound company, no repeat
confirmation needed and no payment method selected leaves the checkout
button enabled, so a selected payment method is not required for the
button to be enabled. -/
theorem checkout_missing_payment_cex :
    exCartNoPay.payment_method = ""
    ∧ exCartNoPay.items.length = 1
    ∧ hasCompany (some { company_id := some 5 }) = true
    ∧ checkoutDisabled exCartNoPay (some { company_id := some 5 }) 0 false = false := by
  refine ⟨rfl, rfl, rfl, rfl⟩

/-- C2 amended: the checkout button is enabled exactly when the cart is
non-empty, a company is bound, and a needed repeat-order confirmation is
acknowledged; the payment method does not affect the button and is instead
enforced by submitOrder, which returns early leaving the state unchanged
when no payment method is selected. -/
theorem checkout_enabled_iff (cart : Cart) (me : Option Me) (count : ℤ)
    (repeatChecked : Bool) (st : ClientState) (rc2 : Bool)
    (resp : Except String Nat) :
    (checkoutDisabled cart me count repeatChecked = false
        ↔ (cart.items ≠ [] ∧ hasCompany me = true
            ∧ (1 ≤ count → repeatChecked = true)))
    ∧ (st.cart.payment_method = "" → submitOrder st rc2 resp = st) := by
  constructor
  · cases repeatChecked with
    | false =>
      simp [checkoutDisabled, List.length_eq_zero]
      tauto
    | true =>
      simp [checkoutDisabled, List.length_eq_zero]
  · intro h
    simp [submitOrder, buildPayload, h]

/-- Witness for C2 amended: submitting with an empty payment method leaves
the concrete state unchanged. -/
theorem checkout_enabled_iff_w :
    submitOrder { baseState with cart := exCartNoPay } false (Except.ok 7)
      = { baseState with cart := exCartNoPay } :=
  (checkout_enabled_iff exCartNoPay none 0 false
    { baseState with cart := exCartNoPay } false (Except.ok 7)).2 rfl

/-- C4 counterexample: for a whole-cent price of 5.50 the computed subtotal
is the non-integral value 11 / 2, so the cart total computation does not
hold money as integer minor units. -/
theorem money_minor_units_cex :
    cartSubtotal [cexLine] = 11 / 2
    ∧ ¬ ∃ n : ℤ, cartSubtotal [cexLine] = (n : ℚ) := by
  have hval : cartSubtotal [cexLine] = 11 / 2 := by
    norm_num [cartSubtotal, cexLine]
  refine ⟨hval, ?_⟩
  rintro ⟨n, hn⟩
  rw [hval] at hn
  have h2 : (11 : ℚ) = 2 * (n : ℚ) := by
    field_simp at hn
    linarith
  have h3 : (11 : ℤ) = 2 * n := by exact_mod_cast h2
  omega

/-- C4 amended: money values in the cart total computation are exact sums
over the decimal major-unit numbers delivered with the menu snapshot; the
subtotal is the rational sum of quantity times price, the grand total adds
the fee components, and intermediate values are not integer minor units
since non-integral values arise for whole-cent prices. -/
theorem money_decimal_major_units (entries : List CartLine) (cart : Cart)
    (settings : Option Settings) (extras : Extras) :
    cartSubtotal entries
        = (entries.map (fun item => (item.qty : ℚ) * item.price)).sum
    ∧ (renderCartTotals cart settings extras).2.2.2
        = (renderCartTotals cart settings extras).1
          + (renderCartTotals cart settings extras).2.1
          + (renderCartTotals cart settings extras).2.2.1
    ∧ ∃ e : CartLine, ¬ ∃ n : ℤ, cartSubtotal [e] = (n : ℚ) := by
  refine ⟨cartSubtotal_eq_sum entries, by simp [renderCartTotals], ?_⟩
  refine ⟨{ id := 1, name := "A", price := 3 / 4, qty := 1 }, ?_⟩
  rintro ⟨n, hn⟩
  have hval : cartSubtotal [{ id := 1, name := "A", price := 3 / 4, qty := 1 }]
      = 3 / 4 := by
    norm_num [cartSubtotal]
  rw [hval] at hn
  have h2 : (3 : ℚ) = 4 * (n : ℚ) := by
    field_simp at hn
    linarith
  have h3 : (3 : ℤ) = 4 * n := by exact_mod_cast h2
  omega

/-- Witness for C4 amended on a concrete entry list. -/
theorem money_decimal_major_units_w :
    cartSubtotal [exLine]
      = (([exLine]).map (fun item => (item.qty : ℚ) * item.price)).sum :=
  (money_decimal_major_units [exLine] baseState.cart none { cutlery := false }).1

/-- C5: on the concrete state whose only cart line is backed by menu item 1,
fetching a snapshot without item 1 leaves the cart line stored unchanged as
an ordinary present line, with no unavailable marking anywhere in the data
model, and the checkout button stays enabled. -/
theorem stale_cart_line_keeps_checkout_open :
    (loadMenu exState exMenuGone).cart = exState.cart
    ∧ alGet (loadMenu exState exMenuGone).cart.items "1" = some exLine
    ∧ (loadMenu exState exMenuGone).menu.items = []
    ∧ checkoutDisabled (loadMenu exState exMenuGone).cart
        (loadMenu exState exMenuGone).me
        (loadMenu exState exMenuGone).todayOrdersCount false = false := by
  refine ⟨rfl, rfl, rfl, rfl⟩

/-- C6: adding an item captures its name and price into the cart line, and
a later menu fetch with any payload, in particular one repricing the same
item id, leaves the stored line unchanged; re-adding the item afterwards
captures the new price. -/
theorem captured_price_stable_across_reload (st : ClientState) (item : MenuItem)
    (q : ℤ) (payload : Menu) (item2 : MenuItem) (q2 : ℤ) :
    (1 ≤ q →
      alGet (loadMenu { st with cart := setQty st.cart item q } payload).cart.items
          (toString item.id)
        = some { id := item.id, name := item.name, price := item.price, qty := q })
    ∧ (1 ≤ q2 → item2.id = item.id →
      alGet (setQty (loadMenu { st with cart := setQty st.cart item q } payload).cart
            item2 q2).items (toString item.id)
        = some { id := item2.id, name := item2.name, price := item2.price, qty := q2 }) := by
  have hcart : (loadMenu { st with cart := setQty st.cart item q } payload).cart
      = setQty st.cart item q := rfl
  constructor
  · intro hq
    rw [hcart]
    exact setQty_lookup_pos st.cart item q hq
  · intro hq2 hid
    rw [hcart, ← hid]
    exact setQty_lookup_pos (setQty st.cart item q) item2 q2 hq2

/-- Witness for C6: add item 1 at price 12, reload an empty menu, and the
stored line still carries the captured price. -/
theorem captured_price_stable_across_reload_w :
    alGet (loadMenu { baseState with cart := setQty baseState.cart exMenuItem 1 }
        exMenuGone).cart.items (toString exMenuItem.id)
      = some { id := exMenuItem.id, name := exMenuItem.name,
               price := exMenuItem.price, qty := 1 } :=
  (captured_price_stable_across_reload baseState exMenuItem 1 exMenuGone
    exMenuItem 1).1 (by omega)

/-- C7: a failed submission leaves the whole client state unchanged, a menu
fetch never touches the cart, and a successful submission either leaves the
cart unchanged (early return without a payment method) or resets it to the
empty cart; no other transition clears it. -/
theorem cart_cleared_only_on_confirmed_submit (st : ClientState) (rc : Bool)
    (e : String) (payload : Menu) (oid : Nat) :
    submitOrder st rc (Except.error e) = st
    ∧ (loadMenu st payload).cart = st.cart
    ∧ ((submitOrder st rc (Except.ok oid)).cart = st.cart
        ∨ (submitOrder st rc (Except.ok oid)).cart
            = { items := [], notes := "", payment_method := "" }) := by
  refine ⟨?_, rfl, ?_⟩
  · simp [submitOrder]
  · by_cases h : st.cart.payment_method = ""
    · left
      simp [submitOrder, buildPayload, h]
    · right
      simp [submitOrder, buildPayload, h, clearCart]

/-- C8: setQty removes the line when the requested quantity is at most 0,
stores the line with the requested quantity when it is at least 1, an add
on an absent item creates a line with quantity 1, and the stored-quantity
invariant of at least 1 is preserved. -/
theorem cart_line_state_machine (cart : Cart) (item : MenuItem) (q : ℤ) :
    (q ≤ 0 → alGet (setQty cart item q).items (toString item.id) = none)
    ∧ (1 ≤ q → alGet (setQty cart item q).items (toString item.id)
        = some { id := item.id, name := item.name, price := item.price, qty := q })
    ∧ (alGet cart.items (toString item.id) = none →
        alGet (setQty cart item (getQty cart item.id + 1)).items (toString item.id)
          = some { id := item.id, name := item.name, price := item.price, qty := 1 })
    ∧ (cartInv cart → cartInv (setQty cart item q)) := by
  refine ⟨fun h => setQty_lookup_nonpos cart item q h,
    fun h => setQty_lookup_pos cart item q h, ?_, ?_⟩
  · intro habs
    have hq0 : getQty cart item.id = 0 := by simp [getQty, habs]
    have h1 := setQty_lookup_pos cart item (getQty cart item.id + 1) (by omega)
    simpa [hq0] using h1
  · intro hinv p hp
    by_cases h0 : max 0 q = 0
    · have hp2 : p ∈ alErase cart.items (toString item.id) := by
        simpa [setQty, h0] using hp
      exact hinv p (mem_alErase hp2)
    · have hmax : 1 ≤ max 0 q := by
        have := le_max_left 0 q
        omega
      have hp2 : p ∈ alSet cart.items (toString item.id)
          { id := item.id, name := item.name, price := item.price, qty := max 0 q } := by
        simpa [setQty, h0] using hp
      rcases mem_alSet hp2 with h1 | h2
      · rw [h1]
        exact hmax
      · exact hinv p h2

/-- Witness for C8: adding item 1 to the empty cart stores a line of
quantity 1. -/
theorem cart_line_state_machine_w :
    alGet (setQty baseState.cart exMenuItem 1).items (toString exMenuItem.id)
      = some { id := exMenuItem.id, name := exMenuItem.name,
               price := exMenuItem.price, qty := 1 } :=
  (cart_line_state_machine baseState.cart exMenuItem 1).2.1 (by omega)

/-- C9: loadCart and loadExtras are total with the documented defaults: a
missing storage key, a parse failure, a parsed value that is not an object
(including null, whose property reads throw and land in the catch branch),
and an object missing the fields all yield the default cart and the
default extras. -/
theorem load_cart_load_extras_total (b : Bool) (q : ℚ) (s : String)
    (fields : List (String × JsValue)) :
    loadCart none = defaultRawCart
    ∧ loadCart (some (Except.error ())) = defaultRawCart
    ∧ loadCart (some (Except.ok JsValue.null)) = defaultRawCart
    ∧ loadCart (some (Except.ok JsValue.undefined)) = defaultRawCart
    ∧ loadCart (some (Except.ok (JsValue.bool b))) = defaultRawCart
    ∧ loadCart (some (Except.ok (JsValue.num q))) = defaultRawCart
    ∧ loadCart (some (Except.ok (JsValue.str s))) = defaultRawCart
    ∧ (alGet fields "items" = none → alGet fields "notes" = none →
        alGet fields "payment_method" = none →
        loadCart (some (Except.ok (JsValue.obj fields))) = defaultRawCart)
    ∧ loadExtras none = { cutlery := false }
    ∧ loadExtras (some (Except.error ())) = { cutlery := false }
    ∧ loadExtras (some (Except.ok JsValue.null)) = { cutlery := false }
    ∧ (alGet fields "cutlery" = none →
        loadExtras (some (Except.ok (JsValue.obj fields))) = { cutlery := false }) := by
  refine ⟨rfl, rfl, rfl, rfl, rfl, rfl, rfl, ?_, rfl, rfl, rfl, ?_⟩
  · intro h1 h2 h3
    simp [loadCart, getProp, h1, h2, h3, jsTruthy, defaultRawCart]
  · intro h
    simp [loadExtras, getProp, h, jsTruthy]

/-- Witness for C9 on a stored object carrying only an unrelated field. -/
theorem load_cart_load_extras_total_w :
    loadCart (some (Except.ok (JsValue.obj [("x", JsValue.num 1)]))) = defaultRawCart :=
  (load_cart_load_extras_total true 0 "" [("x", JsValue.num 1)]).2.2.2.2.2.2.2.1
    rfl rfl rfl

end OrderWeb
